import Mathlib

/-!
Self-healing CI/CD "Pipeline Doctor" — verification development

Shallow embedding of `lambda/doctor/index.js`: the incident controller that
reacts to CodeBuild / CodePipeline failure events, tracks retries in a
key-value store, applies remediation playbooks and escalates via a
notification topic when the retry budget is exhausted.

Strings are modelled as `List Char`; JavaScript's `String.prototype.includes`
is substring containment, modelled with `List.IsInfix` (`<:+:`).  External
collaborators (CodeBuild, CodePipeline, DynamoDB, SNS) are modelled as
explicit inputs and as an effect trace: the outcome records, in order, the
orchestration-API calls attempted, the notifier invocations, the messages
actually published, and the store writes.  A fallible orchestration call is
resolved by the environment's `execOk` oracle; when it fails the JavaScript
`await` throws and the handler aborts with no further effects (`threw`).
`lastUpdated` (a wall-clock timestamp) and the `CACHE_BUSTER` value
(`Date.now()`) are time-dependent and carry no logic; they are omitted from
the stored record / call arguments.  Store reads/writes and the SNS publish
are modelled as succeeding: no verified property concerns their failure.
-/

namespace Doctor

/-- The remediation actions the doctor can record, including the terminal
`GAVE_UP` marker written on escalation (stored as strings in the source). -/
inductive Action
  | RETRY
  | BUMP_TIMEOUT_AND_RETRY
  | BACKOFF_AND_RETRY
  | RETRY_STAGE
  | GAVE_UP
deriving DecidableEq, Repr

/-- Incident status as persisted: `RETRYING` is non-terminal, `UNHEALED` is
the terminal budget-exhausted state. -/
inductive Status
  | RETRYING
  | UNHEALED
deriving DecidableEq, Repr

/-- One DynamoDB incident record, as written by `saveIncident`
(`lastUpdated` omitted: it is a wall-clock timestamp with no logic). -/
structure StoredItem where
  retries : Nat
  lastAction : Action
  status : Status
deriving DecidableEq, Repr

/-- The incident store: `getItem` by incident id; `none` models "not found". -/
abbrev Store := List Char → Option StoredItem

/-- Result of `codebuild.batchGetBuilds` for the failing build:
the project name and `JSON.stringify(build)`, the opaque serialized
diagnostic blob the classifier inspects. -/
structure BuildInfo where
  projectName : List Char
  serialized : List Char
deriving DecidableEq, Repr

/-- The `detail` payload of an inbound EventBridge event, with the fields the
handler reads (build id / status for build events; pipeline, stage,
execution id, state for pipeline events). -/
structure EventDetail where
  buildId : List Char
  buildStatus : List Char
  pipeline : List Char
  stage : List Char
  executionId : List Char
  state : List Char
deriving DecidableEq, Repr

/-- An inbound EventBridge event: `detail-type` plus `detail`. -/
structure Event where
  detailType : List Char
  detail : EventDetail
deriving DecidableEq, Repr

/-- An orchestration-API call attempted by the handler, with its arguments
(`sleepMs` is the backoff `setTimeout` suspension; `startBuild` omits the
time-dependent `CACHE_BUSTER` override value). -/
inductive ExecCall
  | updateProject (name : List Char) (timeoutInMinutes : Nat)
  | sleepMs (ms : Nat)
  | startBuild (projectName : List Char)
  | retryStageExecution (pipelineName executionId stageName retryMode : List Char)
deriving DecidableEq, Repr

/-- Which orchestration calls can throw: the AWS API calls can, the local
`setTimeout` suspension cannot. -/
def fallibleCall : ExecCall → Bool
  | .sleepMs _ => false
  | _ => true

/-- The environment of one invocation: configuration (`MAX_RETRIES`,
`TOPIC_ARN`), the CodeBuild `batchGetBuilds` response for a build id, and
the success/failure oracle for fallible orchestration calls. -/
structure Env where
  maxRetries : Nat
  topicArn : Option (List Char)
  describe : List Char → BuildInfo
  execOk : ExecCall → Bool

/-- The observable outcome of one handler invocation: orchestration calls
attempted (in order), `notify` invocations, messages actually published to
the topic, store writes, and whether the invocation threw (an uncaught
error propagating to the caller). -/
structure Outcome where
  calls : List ExecCall
  notifyCalls : List (List Char)
  published : List (List Char)
  writes : List (List Char × StoredItem)
  threw : Bool
deriving DecidableEq, Repr

/-- The literal `'FAILED'`. -/
def FAILED : List Char := "FAILED".toList

/-- The literal `'TIMED_OUT'`: both a build status and the timeout marker the classifier
looks for in the serialized blob. -/
def TIMED_OUT : List Char := "TIMED_OUT".toList

/-- The rate-limit phrase the classifier looks for (the blob is lowercased
first, so the match is case-insensitive). -/
def rateMarker : List Char := "rate exceeded".toList

/-- The literal `'FAILED_ACTIONS'`, the `retryMode` passed to `retryStageExecution`. -/
def FAILED_ACTIONS : List Char := "FAILED_ACTIONS".toList

/-- The `detail-type` marker for CodeBuild events (`type.includes(...)`). -/
def cbDetailType : List Char := "CodeBuild Build State Change".toList

/-- The `detail-type` marker for CodePipeline action events. -/
def cpDetailType : List Char := "CodePipeline Action Execution State Change".toList

/-- The incident identity for a build failure: `` `codebuild:${buildId}` ``. -/
def buildIncidentId (buildId : List Char) : List Char :=
  "codebuild:".toList ++ buildId

/-- The incident identity for a pipeline action failure:
`` `codepipeline:${execId}:${stageName}` `` — note the pipeline name is not
part of the identity. -/
def pipelineIncidentId (executionId stageName : List Char) : List Char :=
  "codepipeline:".toList ++ executionId ++ ":".toList ++ stageName

/-- Transliterates `getRetries`: read the stored retry count, absence mapping to 0. -/
def getRetries (store : Store) (incidentId : List Char) : Nat :=
  match store incidentId with
  | some item => item.retries
  | none => 0

/-- Transliterates `notify`: publishes the message to the SNS topic, unless `TOPIC_ARN` is
unset, in which case it returns without publishing. Returns the list of
messages published. -/
def notifyPublishes (topicArn : Option (List Char)) (message : List Char) :
    List (List Char) :=
  match topicArn with
  | none => []
  | some _ => [message]

/-- The classifier (lines 49–52 of the source): default `RETRY`, overwritten
to `BUMP_TIMEOUT_AND_RETRY` when the blob contains `TIMED_OUT`
(case-sensitive), overwritten to `BACKOFF_AND_RETRY` when the lowercased
blob contains `rate exceeded`. Last match wins. -/
def classify (raw : List Char) : Action :=
  let action := Action.RETRY
  let action := if TIMED_OUT <:+: raw then Action.BUMP_TIMEOUT_AND_RETRY else action
  let action := if rateMarker <:+: raw.map Char.toLower then Action.BACKOFF_AND_RETRY else action
  action

/-- The escalation message for an exhausted build incident:
`` `❌ Build ${buildId} (${projectName}) failed after ${retries} retries` ``. -/
def buildGiveUpMsg (buildId projectName : List Char) (retries : Nat) : List Char :=
  "❌ Build ".toList ++ buildId ++ " (".toList ++ projectName
    ++ ") failed after ".toList ++ (toString retries).toList ++ " retries".toList

/-- The escalation message for an exhausted pipeline incident:
`` `❌ Pipeline ${pipelineName}/${stageName} failed after ${retries} retries` ``. -/
def pipelineGiveUpMsg (pipelineName stageName : List Char) (retries : Nat) : List Char :=
  "❌ Pipeline ".toList ++ pipelineName ++ "/".toList ++ stageName
    ++ " failed after ".toList ++ (toString retries).toList ++ " retries".toList

/-- The guard of the CodeBuild branch: `detail-type` contains the CodeBuild
marker and the build status is `FAILED` or `TIMED_OUT`. -/
abbrev recognizedBuild (event : Event) : Prop :=
  cbDetailType <:+: event.detailType ∧
    (event.detail.buildStatus = FAILED ∨ event.detail.buildStatus = TIMED_OUT)

/-- The guard of the CodePipeline branch: `detail-type` contains the
CodePipeline marker and the action state is `FAILED`. -/
abbrev recognizedPipeline (event : Event) : Prop :=
  cpDetailType <:+: event.detailType ∧ event.detail.state = FAILED

/-- An event the controller acts on: the build branch is checked first and
returns, so the pipeline branch only runs when the build guard is false. -/
abbrev recognized (event : Event) : Prop :=
  recognizedBuild event ∨ (¬ recognizedBuild event ∧ recognizedPipeline event)

/-- Transliterates `exports.handler`: one invocation of the doctor, transliterated from the
source. Build branch: look up the build, derive the identity, read retries;
escalate and write the terminal record if the budget is exhausted, else
classify, perform the action's pre-steps and the re-trigger (aborting with
`threw` when a fallible call fails), and persist `retries+1`. Pipeline
branch: same shape with the fixed `RETRY_STAGE` action. -/
def handler (env : Env) (store : Store) (event : Event) : Outcome :=
  if recognizedBuild event then
    let buildId := event.detail.buildId
    let info := env.describe buildId
    let projectName := info.projectName
    let incidentId := buildIncidentId buildId
    let retries := getRetries store incidentId
    if env.maxRetries ≤ retries then
      let msg := buildGiveUpMsg buildId projectName retries
      { calls := [], notifyCalls := [msg],
        published := notifyPublishes env.topicArn msg,
        writes := [(incidentId, ⟨retries, Action.GAVE_UP, Status.UNHEALED⟩)],
        threw := false }
    else
      let action := classify info.serialized
      if action = Action.BUMP_TIMEOUT_AND_RETRY
          ∧ env.execOk (.updateProject projectName 25) = false then
        { calls := [.updateProject projectName 25], notifyCalls := [],
          published := [], writes := [], threw := true }
      else
        let pre : List ExecCall :=
          (if action = Action.BUMP_TIMEOUT_AND_RETRY then
            [ExecCall.updateProject projectName 25] else [])
          ++ (if action = Action.BACKOFF_AND_RETRY then
            [ExecCall.sleepMs 30000] else [])
        if env.execOk (.startBuild projectName) = false then
          { calls := pre ++ [.startBuild projectName], notifyCalls := [],
            published := [], writes := [], threw := true }
        else
          { calls := pre ++ [.startBuild projectName], notifyCalls := [],
            published := [],
            writes := [(incidentId, ⟨retries + 1, action, Status.RETRYING⟩)],
            threw := false }
  else if recognizedPipeline event then
    let pipelineName := event.detail.pipeline
    let stageName := event.detail.stage
    let execId := event.detail.executionId
    let incidentId := pipelineIncidentId execId stageName
    let retries := getRetries store incidentId
    if env.maxRetries ≤ retries then
      let msg := pipelineGiveUpMsg pipelineName stageName retries
      { calls := [], notifyCalls := [msg],
        published := notifyPublishes env.topicArn msg,
        writes := [(incidentId, ⟨retries, Action.GAVE_UP, Status.UNHEALED⟩)],
        threw := false }
    else
      let call := ExecCall.retryStageExecution pipelineName execId stageName FAILED_ACTIONS
      if env.execOk call = false then
        { calls := [call], notifyCalls := [], published := [], writes := [],
          threw := true }
      else
        { calls := [call], notifyCalls := [], published := [],
          writes := [(incidentId, ⟨retries + 1, Action.RETRY_STAGE, Status.RETRYING⟩)],
          threw := false }
  else
    { calls := [], notifyCalls := [], published := [], writes := [], threw := false }

/-- The incident identity the controller derives for a recognized event. -/
def eventIncidentId (event : Event) : List Char :=
  if recognizedBuild event then buildIncidentId event.detail.buildId
  else pipelineIncidentId event.detail.executionId event.detail.stage

/-- The remediation action the controller chooses for a recognized event
below budget: the classifier's verdict for build events, `RETRY_STAGE` for
pipeline events. -/
def chosenAction (env : Env) (event : Event) : Action :=
  if recognizedBuild event then classify (env.describe event.detail.buildId).serialized
  else Action.RETRY_STAGE

/-- The escalation message emitted for a recognized event at budget. -/
def escalationMessage (env : Env) (event : Event) (retries : Nat) : List Char :=
  if recognizedBuild event then
    buildGiveUpMsg event.detail.buildId
      (env.describe event.detail.buildId).projectName retries
  else
    pipelineGiveUpMsg event.detail.pipeline event.detail.stage retries

/-- Apply an outcome's store writes (DynamoDB `putItem`, unconditional
overwrite) to a store, in order. -/
def applyOutcome (store : Store) (o : Outcome) : Store :=
  o.writes.foldl (fun s kv => fun k => if k = kv.1 then some kv.2 else s k) store

/-- Process a list of events sequentially, each against the store state left
by the previous one. -/
def processAll (env : Env) (events : List Event) (store : Store) : Store :=
  events.foldl (fun s ev => applyOutcome s (handler env s ev)) store

/-- The pre-steps of the build branch: the timeout bump for
`BUMP_TIMEOUT_AND_RETRY`, the backoff suspension for `BACKOFF_AND_RETRY`. -/
def preSteps (projectName : List Char) (action : Action) : List ExecCall :=
  (if action = Action.BUMP_TIMEOUT_AND_RETRY then
    [ExecCall.updateProject projectName 25] else [])
  ++ (if action = Action.BACKOFF_AND_RETRY then [ExecCall.sleepMs 30000] else [])

/-- A pipeline action failure event for pipeline `p`, stage `Build`,
execution `e1` (used to exhibit events differing only in pipeline name). -/
def pipelineEventNamed (p : List Char) : Event :=
  ⟨cpDetailType, ⟨[], [], p, "Build".toList, "e1".toList, FAILED⟩⟩

/-! ## Branch characterizations of the handler -/

/-- Build branch, budget exhausted: notify then write the terminal record. -/
theorem handler_build_giveup (env : Env) (store : Store) (event : Event)
    (hb : recognizedBuild event)
    (hr : env.maxRetries ≤ getRetries store (buildIncidentId event.detail.buildId)) :
    handler env store event =
      { calls := [],
        notifyCalls := [buildGiveUpMsg event.detail.buildId
          (env.describe event.detail.buildId).projectName
          (getRetries store (buildIncidentId event.detail.buildId))],
        published := notifyPublishes env.topicArn
          (buildGiveUpMsg event.detail.buildId
            (env.describe event.detail.buildId).projectName
            (getRetries store (buildIncidentId event.detail.buildId))),
        writes := [(buildIncidentId event.detail.buildId,
          ⟨getRetries store (buildIncidentId event.detail.buildId),
            Action.GAVE_UP, Status.UNHEALED⟩)],
        threw := false } := by
  unfold handler
  rw [if_pos hb]
  dsimp only
  rw [if_pos hr]

/-- Build branch, below budget, timeout bump fails: abort with only that call. -/
theorem handler_build_bumpfail (env : Env) (store : Store) (event : Event)
    (hb : recognizedBuild event)
    (hr : ¬ env.maxRetries ≤ getRetries store (buildIncidentId event.detail.buildId))
    (ha : classify (env.describe event.detail.buildId).serialized
      = Action.BUMP_TIMEOUT_AND_RETRY)
    (hfail : env.execOk
      (.updateProject (env.describe event.detail.buildId).projectName 25) = false) :
    handler env store event =
      { calls := [.updateProject (env.describe event.detail.buildId).projectName 25],
        notifyCalls := [], published := [], writes := [], threw := true } := by
  unfold handler
  rw [if_pos hb]
  dsimp only
  rw [if_neg hr, if_pos ⟨ha, hfail⟩]

/-- Build branch, below budget, pre-steps succeed but `startBuild` fails:
abort with the calls so far and no store write. -/
theorem handler_build_startfail (env : Env) (store : Store) (event : Event)
    (hb : recognizedBuild event)
    (hr : ¬ env.maxRetries ≤ getRetries store (buildIncidentId event.detail.buildId))
    (hpre : ¬ (classify (env.describe event.detail.buildId).serialized
        = Action.BUMP_TIMEOUT_AND_RETRY
      ∧ env.execOk
        (.updateProject (env.describe event.detail.buildId).projectName 25) = false))
    (hfail : env.execOk
      (.startBuild (env.describe event.detail.buildId).projectName) = false) :
    handler env store event =
      { calls := preSteps (env.describe event.detail.buildId).projectName
            (classify (env.describe event.detail.buildId).serialized)
          ++ [.startBuild (env.describe event.detail.buildId).projectName],
        notifyCalls := [], published := [], writes := [], threw := true } := by
  unfold handler
  rw [if_pos hb]
  dsimp only
  rw [if_neg hr, if_neg hpre, if_pos hfail]
  rfl

/-- Build branch, below budget, all orchestration calls succeed: attempt the
classified action and persist `retries + 1`, `RETRYING`. -/
theorem handler_build_success (env : Env) (store : Store) (event : Event)
    (hb : recognizedBuild event)
    (hr : ¬ env.maxRetries ≤ getRetries store (buildIncidentId event.detail.buildId))
    (hpre : ¬ (classify (env.describe event.detail.buildId).serialized
        = Action.BUMP_TIMEOUT_AND_RETRY
      ∧ env.execOk
        (.updateProject (env.describe event.detail.buildId).projectName 25) = false))
    (hok : env.execOk
      (.startBuild (env.describe event.detail.buildId).projectName) = true) :
    handler env store event =
      { calls := preSteps (env.describe event.detail.buildId).projectName
            (classify (env.describe event.detail.buildId).serialized)
          ++ [.startBuild (env.describe event.detail.buildId).projectName],
        notifyCalls := [], published := [],
        writes := [(buildIncidentId event.detail.buildId,
          ⟨getRetries store (buildIncidentId event.detail.buildId) + 1,
            classify (env.describe event.detail.buildId).serialized,
            Status.RETRYING⟩)],
        threw := false } := by
  unfold handler
  rw [if_pos hb]
  dsimp only
  rw [if_neg hr, if_neg hpre, if_neg (by simp [hok])]
  rfl

/-- Pipeline branch, budget exhausted: notify then write the terminal record. -/
theorem handler_pipeline_giveup (env : Env) (store : Store) (event : Event)
    (hnb : ¬ recognizedBuild event) (hp : recognizedPipeline event)
    (hr : env.maxRetries ≤ getRetries store
      (pipelineIncidentId event.detail.executionId event.detail.stage)) :
    handler env store event =
      { calls := [],
        notifyCalls := [pipelineGiveUpMsg event.detail.pipeline event.detail.stage
          (getRetries store
            (pipelineIncidentId event.detail.executionId event.detail.stage))],
        published := notifyPublishes env.topicArn
          (pipelineGiveUpMsg event.detail.pipeline event.detail.stage
            (getRetries store
              (pipelineIncidentId event.detail.executionId event.detail.stage))),
        writes := [(pipelineIncidentId event.detail.executionId event.detail.stage,
          ⟨getRetries store
            (pipelineIncidentId event.detail.executionId event.detail.stage),
            Action.GAVE_UP, Status.UNHEALED⟩)],
        threw := false } := by
  unfold handler
  rw [if_neg hnb, if_pos hp]
  dsimp only
  rw [if_pos hr]

/-- Pipeline branch, below budget, stage retry fails: abort, no store write. -/
theorem handler_pipeline_fail (env : Env) (store : Store) (event : Event)
    (hnb : ¬ recognizedBuild event) (hp : recognizedPipeline event)
    (hr : ¬ env.maxRetries ≤ getRetries store
      (pipelineIncidentId event.detail.executionId event.detail.stage))
    (hfail : env.execOk (.retryStageExecution event.detail.pipeline
      event.detail.executionId event.detail.stage FAILED_ACTIONS) = false) :
    handler env store event =
      { calls := [.retryStageExecution event.detail.pipeline
          event.detail.executionId event.detail.stage FAILED_ACTIONS],
        notifyCalls := [], published := [], writes := [], threw := true } := by
  unfold handler
  rw [if_neg hnb, if_pos hp]
  dsimp only
  rw [if_neg hr, if_pos hfail]

/-- Pipeline branch, below budget, stage retry succeeds: persist
`retries + 1`, `RETRY_STAGE`, `RETRYING`. -/
theorem handler_pipeline_success (env : Env) (store : Store) (event : Event)
    (hnb : ¬ recognizedBuild event) (hp : recognizedPipeline event)
    (hr : ¬ env.maxRetries ≤ getRetries store
      (pipelineIncidentId event.detail.executionId event.detail.stage))
    (hok : env.execOk (.retryStageExecution event.detail.pipeline
      event.detail.executionId event.detail.stage FAILED_ACTIONS) = true) :
    handler env store event =
      { calls := [.retryStageExecution event.detail.pipeline
          event.detail.executionId event.detail.stage FAILED_ACTIONS],
        notifyCalls := [], published := [],
        writes := [(pipelineIncidentId event.detail.executionId event.detail.stage,
          ⟨getRetries store
            (pipelineIncidentId event.detail.executionId event.detail.stage) + 1,
            Action.RETRY_STAGE, Status.RETRYING⟩)],
        threw := false } := by
  unfold handler
  rw [if_neg hnb, if_pos hp]
  dsimp only
  rw [if_neg hr, if_neg (by simp [hok])]

/-- Unrecognized events are a no-op. -/
theorem handler_noop (env : Env) (store : Store) (event : Event)
    (hnb : ¬ recognizedBuild event) (hnp : ¬ recognizedPipeline event) :
    handler env store event =
      { calls := [], notifyCalls := [], published := [], writes := [],
        threw := false } := by
  unfold handler
  rw [if_neg hnb, if_neg hnp]

example : classify "something TIMED_OUT here".toList = Action.BUMP_TIMEOUT_AND_RETRY := by decide
example : classify "Rate Exceeded and TIMED_OUT".toList = Action.BACKOFF_AND_RETRY := by decide
example : classify "plain failure".toList = Action.RETRY := by decide
example : classify "timed_out".toList = Action.RETRY := by decide

/-! ## Claim theorems -/

/-- C1: classification is last-match-wins over a default. The action is
`RETRY` by default; it becomes `BUMP_TIMEOUT_AND_RETRY` if the serialized
diagnostic blob contains `TIMED_OUT`; and it becomes `BACKOFF_AND_RETRY`
if the blob, case-insensitively, contains `rate exceeded` — the rate-limit
rule has highest priority and overrides the timeout rule when both
substrings are present, and a blob containing neither marker yields
`RETRY`. -/
theorem classify_last_match_wins (raw : List Char) :
    (rateMarker <:+: raw.map Char.toLower →
      classify raw = Action.BACKOFF_AND_RETRY) ∧
    (¬ rateMarker <:+: raw.map Char.toLower → TIMED_OUT <:+: raw →
      classify raw = Action.BUMP_TIMEOUT_AND_RETRY) ∧
    (¬ rateMarker <:+: raw.map Char.toLower → ¬ TIMED_OUT <:+: raw →
      classify raw = Action.RETRY) := by
  unfold classify
  refine ⟨fun hrate => ?_, fun hnr ht => ?_, fun hnr hnt => ?_⟩
  · simp [hrate]
  · simp [hnr, ht]
  · simp [hnr, hnt]

/-- C1 witness: a blob with both markers (rate phrase in mixed case)
classifies to `BACKOFF_AND_RETRY`. -/
theorem classify_last_match_wins_witness :
    rateMarker <:+: ("build TIMED_OUT: Rate Exceeded".toList.map Char.toLower) ∧
    classify "build TIMED_OUT: Rate Exceeded".toList = Action.BACKOFF_AND_RETRY :=
  ⟨by decide, (classify_last_match_wins "build TIMED_OUT: Rate Exceeded".toList).1 (by decide)⟩

/-- C9: the timeout check is case-sensitive while the rate-limit check is
case-insensitive — a blob containing the timeout marker only in a different
case (so the lowercased blob contains `timed_out` but the blob does not
contain `TIMED_OUT`) and no rate-limit phrase classifies to `RETRY`, not
`BUMP_TIMEOUT_AND_RETRY`. -/
theorem classify_timeout_case_sensitive (raw : List Char)
    (hsomecase : "timed_out".toList <:+: raw.map Char.toLower)
    (hexact : ¬ TIMED_OUT <:+: raw)
    (hrate : ¬ rateMarker <:+: raw.map Char.toLower) :
    classify raw = Action.RETRY := by
  unfold classify
  simp [hexact, hrate]

/-- C9 witness: the blob `"build timed_out"` (lower-case marker, no
rate-limit phrase) classifies to `RETRY`. -/
theorem classify_timeout_case_sensitive_witness :
    ("timed_out".toList <:+: "build timed_out".toList.map Char.toLower) ∧
    (¬ TIMED_OUT <:+: "build timed_out".toList) ∧
    (¬ rateMarker <:+: "build timed_out".toList.map Char.toLower) ∧
    classify "build timed_out".toList = Action.RETRY :=
  ⟨by decide, by decide, by decide,
    classify_timeout_case_sensitive "build timed_out".toList
      (by decide) (by decide) (by decide)⟩

/-- The build escalation message contains the build id. -/
theorem buildId_infix_msg (b p : List Char) (r : Nat) :
    b <:+: buildGiveUpMsg b p r :=
  ⟨"❌ Build ".toList,
    " (".toList ++ p ++ ") failed after ".toList ++ (toString r).toList
      ++ " retries".toList,
    by simp [buildGiveUpMsg]⟩

/-- The build escalation message contains the retry count. -/
theorem retries_infix_build_msg (b p : List Char) (r : Nat) :
    (toString r).toList <:+: buildGiveUpMsg b p r :=
  ⟨"❌ Build ".toList ++ b ++ " (".toList ++ p ++ ") failed after ".toList,
    " retries".toList,
    by simp [buildGiveUpMsg]⟩

/-- The pipeline escalation message contains the pipeline name. -/
theorem pipeline_infix_msg (p s : List Char) (r : Nat) :
    p <:+: pipelineGiveUpMsg p s r :=
  ⟨"❌ Pipeline ".toList,
    "/".toList ++ s ++ " failed after ".toList ++ (toString r).toList
      ++ " retries".toList,
    by simp [pipelineGiveUpMsg]⟩

/-- The pipeline escalation message contains the stage name. -/
theorem stage_infix_msg (p s : List Char) (r : Nat) :
    s <:+: pipelineGiveUpMsg p s r :=
  ⟨"❌ Pipeline ".toList ++ p ++ "/".toList,
    " failed after ".toList ++ (toString r).toList ++ " retries".toList,
    by simp [pipelineGiveUpMsg]⟩

/-- The pipeline escalation message contains the retry count. -/
theorem retries_infix_pipeline_msg (p s : List Char) (r : Nat) :
    (toString r).toList <:+: pipelineGiveUpMsg p s r :=
  ⟨"❌ Pipeline ".toList ++ p ++ "/".toList ++ s ++ " failed after ".toList,
    " retries".toList,
    by simp [pipelineGiveUpMsg]⟩

/-- C2: at or above the retry budget the controller makes no orchestration
call, invokes the notifier with a message identifying the resource and the
retry count, and persists `status=UNHEALED`, `lastAction=GAVE_UP` with the
retry count unchanged (the stored value, not incremented). -/
theorem handler_giveup_escalates (env : Env) (store : Store) (event : Event)
    (hrec : recognized event)
    (hbudget : env.maxRetries ≤ getRetries store (eventIncidentId event)) :
    (handler env store event).calls = [] ∧
    (handler env store event).writes = [(eventIncidentId event,
      ⟨getRetries store (eventIncidentId event), Action.GAVE_UP, Status.UNHEALED⟩)] ∧
    (handler env store event).notifyCalls =
      [escalationMessage env event (getRetries store (eventIncidentId event))] ∧
    (recognizedBuild event →
      event.detail.buildId <:+:
        escalationMessage env event (getRetries store (eventIncidentId event))) ∧
    (¬ recognizedBuild event →
      event.detail.pipeline <:+:
        escalationMessage env event (getRetries store (eventIncidentId event)) ∧
      event.detail.stage <:+:
        escalationMessage env event (getRetries store (eventIncidentId event))) ∧
    (toString (getRetries store (eventIncidentId event))).toList <:+:
      escalationMessage env event (getRetries store (eventIncidentId event)) := by
  rcases hrec with hb | ⟨hnb, hp⟩
  · rw [eventIncidentId, if_pos hb] at hbudget ⊢
    rw [escalationMessage, if_pos hb]
    rw [handler_build_giveup env store event hb hbudget]
    exact ⟨rfl, rfl, rfl, fun _ => buildId_infix_msg _ _ _,
      fun hnb => absurd hb hnb, retries_infix_build_msg _ _ _⟩
  · rw [eventIncidentId, if_neg hnb] at hbudget ⊢
    rw [escalationMessage, if_neg hnb]
    rw [handler_pipeline_giveup env store event hnb hp hbudget]
    exact ⟨rfl, rfl, rfl, fun hb => absurd hb hnb,
      fun _ => ⟨pipeline_infix_msg _ _ _, stage_infix_msg _ _ _⟩,
      retries_infix_pipeline_msg _ _ _⟩

/-- C2 witness: a concrete build event whose identity has 2 stored retries
against `maxRetries = 2`. -/
theorem handler_giveup_escalates_witness :
    (recognized ⟨cbDetailType, ⟨"b1".toList, FAILED, [], [], [], []⟩⟩ ∧
      (2 ≤ getRetries
        (fun k => if k = buildIncidentId "b1".toList
          then some ⟨2, Action.RETRY, Status.RETRYING⟩ else none)
        (eventIncidentId ⟨cbDetailType, ⟨"b1".toList, FAILED, [], [], [], []⟩⟩))) ∧
    ((handler ⟨2, some "topic".toList, fun _ => ⟨"proj".toList, "blob".toList⟩,
        fun _ => true⟩
      (fun k => if k = buildIncidentId "b1".toList
        then some ⟨2, Action.RETRY, Status.RETRYING⟩ else none)
      ⟨cbDetailType, ⟨"b1".toList, FAILED, [], [], [], []⟩⟩).calls = []) :=
  ⟨⟨by decide, by decide⟩,
    (handler_giveup_escalates
      ⟨2, some "topic".toList, fun _ => ⟨"proj".toList, "blob".toList⟩, fun _ => true⟩
      (fun k => if k = buildIncidentId "b1".toList
        then some ⟨2, Action.RETRY, Status.RETRYING⟩ else none)
      ⟨cbDetailType, ⟨"b1".toList, FAILED, [], [], [], []⟩⟩
      (by decide) (by decide)).1⟩

/-- C7: an event for an identity already in terminal state (stored record
with `retryCount ≥ maxRetries`, in particular one with `status = UNHEALED`,
which the quantified `item` covers) escalates again: the notifier is
re-invoked, the message is re-published whenever a topic is configured, and
the terminal record is re-written — the budget check looks only at the
stored retry count, never at the stored status. -/
theorem handler_reescalates_terminal (env : Env) (store : Store) (event : Event)
    (item : StoredItem)
    (hrec : recognized event)
    (hstored : store (eventIncidentId event) = some item)
    (hterm : env.maxRetries ≤ item.retries) :
    (handler env store event).notifyCalls = [escalationMessage env event item.retries] ∧
    (∀ arn, env.topicArn = some arn →
      (handler env store event).published = [escalationMessage env event item.retries]) ∧
    (handler env store event).writes = [(eventIncidentId event,
      ⟨item.retries, Action.GAVE_UP, Status.UNHEALED⟩)] ∧
    (handler env store event).calls = [] := by
  have hget : getRetries store (eventIncidentId event) = item.retries := by
    simp [getRetries, hstored]
  rcases hrec with hb | ⟨hnb, hp⟩
  · rw [eventIncidentId, if_pos hb] at hget hstored ⊢
    rw [escalationMessage, if_pos hb]
    rw [handler_build_giveup env store event hb (hget ▸ hterm)]
    refine ⟨by rw [hget], fun arn harn => ?_, by rw [hget], rfl⟩
    simp [notifyPublishes, harn, hget]
  · rw [eventIncidentId, if_neg hnb] at hget hstored ⊢
    rw [escalationMessage, if_neg hnb]
    rw [handler_pipeline_giveup env store event hnb hp (hget ▸ hterm)]
    refine ⟨by rw [hget], fun arn harn => ?_, by rw [hget], rfl⟩
    simp [notifyPublishes, harn, hget]

/-- C7 witness: an identity already stored as `UNHEALED`/`GAVE_UP` with
2 retries, `maxRetries = 2`: the event escalates again. -/
theorem handler_reescalates_terminal_witness :
    (recognized ⟨cpDetailType, ⟨[], [], "p1".toList, "Build".toList, "e1".toList, FAILED⟩⟩ ∧
      (fun k => if k = pipelineIncidentId "e1".toList "Build".toList
        then some (⟨2, Action.GAVE_UP, Status.UNHEALED⟩ : StoredItem) else none)
        (eventIncidentId ⟨cpDetailType, ⟨[], [], "p1".toList, "Build".toList, "e1".toList, FAILED⟩⟩)
        = some ⟨2, Action.GAVE_UP, Status.UNHEALED⟩ ∧
      2 ≤ (2 : Nat)) ∧
    (handler ⟨2, some "topic".toList, fun _ => ⟨"proj".toList, "blob".toList⟩, fun _ => true⟩
      (fun k => if k = pipelineIncidentId "e1".toList "Build".toList
        then some ⟨2, Action.GAVE_UP, Status.UNHEALED⟩ else none)
      ⟨cpDetailType, ⟨[], [], "p1".toList, "Build".toList, "e1".toList, FAILED⟩⟩).calls = [] :=
  ⟨⟨by decide, by decide, by decide⟩,
    (handler_reescalates_terminal
      ⟨2, some "topic".toList, fun _ => ⟨"proj".toList, "blob".toList⟩, fun _ => true⟩
      (fun k => if k = pipelineIncidentId "e1".toList "Build".toList
        then some ⟨2, Action.GAVE_UP, Status.UNHEALED⟩ else none)
      ⟨cpDetailType, ⟨[], [], "p1".toList, "Build".toList, "e1".toList, FAILED⟩⟩
      ⟨2, Action.GAVE_UP, Status.UNHEALED⟩
      (by decide) (by decide) (by decide)).2.2.2⟩

/-- C10: with no topic configured, the notifier returns without publishing
and without error — on budget exhaustion the escalation message is silently
dropped (nothing published, nothing thrown) while the terminal record is
still persisted. -/
theorem handler_no_topic_silent_drop (env : Env) (store : Store) (event : Event)
    (hnone : env.topicArn = none)
    (hrec : recognized event)
    (hbudget : env.maxRetries ≤ getRetries store (eventIncidentId event)) :
    (∀ msg, notifyPublishes env.topicArn msg = []) ∧
    (handler env store event).published = [] ∧
    (handler env store event).threw = false ∧
    (handler env store event).writes = [(eventIncidentId event,
      ⟨getRetries store (eventIncidentId event), Action.GAVE_UP, Status.UNHEALED⟩)] := by
  refine ⟨fun msg => by simp [notifyPublishes, hnone], ?_⟩
  rcases hrec with hb | ⟨hnb, hp⟩
  · rw [eventIncidentId, if_pos hb] at hbudget ⊢
    rw [handler_build_giveup env store event hb hbudget]
    exact ⟨by simp [notifyPublishes, hnone], rfl, rfl⟩
  · rw [eventIncidentId, if_neg hnb] at hbudget ⊢
    rw [handler_pipeline_giveup env store event hnb hp hbudget]
    exact ⟨by simp [notifyPublishes, hnone], rfl, rfl⟩

/-- C10 witness: unset topic, exhausted build incident — nothing published,
nothing thrown. -/
theorem handler_no_topic_silent_drop_witness :
    ((none : Option (List Char)) = none ∧
      recognized ⟨cbDetailType, ⟨"b1".toList, TIMED_OUT, [], [], [], []⟩⟩ ∧
      2 ≤ getRetries
        (fun k => if k = buildIncidentId "b1".toList
          then some ⟨3, Action.RETRY, Status.RETRYING⟩ else none)
        (eventIncidentId ⟨cbDetailType, ⟨"b1".toList, TIMED_OUT, [], [], [], []⟩⟩)) ∧
    (handler ⟨2, none, fun _ => ⟨"proj".toList, "blob".toList⟩, fun _ => true⟩
      (fun k => if k = buildIncidentId "b1".toList
        then some ⟨3, Action.RETRY, Status.RETRYING⟩ else none)
      ⟨cbDetailType, ⟨"b1".toList, TIMED_OUT, [], [], [], []⟩⟩).published = [] :=
  ⟨⟨rfl, by decide, by decide⟩,
    (handler_no_topic_silent_drop
      ⟨2, none, fun _ => ⟨"proj".toList, "blob".toList⟩, fun _ => true⟩
      (fun k => if k = buildIncidentId "b1".toList
        then some ⟨3, Action.RETRY, Status.RETRYING⟩ else none)
      ⟨cbDetailType, ⟨"b1".toList, TIMED_OUT, [], [], [], []⟩⟩
      rfl (by decide) (by decide)).2.1⟩

/-- C4: below budget, when every orchestration call succeeds, the controller
persists exactly `retryCount = N + 1` (N the stored value read), the chosen
action as `lastAction`, and `status = RETRYING`, for both build and
pipeline-stage events, without throwing. -/
theorem handler_success_persists (env : Env) (store : Store) (event : Event)
    (hrec : recognized event)
    (hbelow : getRetries store (eventIncidentId event) < env.maxRetries)
    (hok : ∀ c, env.execOk c = true) :
    (handler env store event).threw = false ∧
    (handler env store event).writes = [(eventIncidentId event,
      ⟨getRetries store (eventIncidentId event) + 1, chosenAction env event,
        Status.RETRYING⟩)] := by
  rcases hrec with hb | ⟨hnb, hp⟩
  · rw [eventIncidentId, if_pos hb] at hbelow ⊢
    rw [chosenAction, if_pos hb]
    rw [handler_build_success env store event hb (Nat.not_le.mpr hbelow)
      (fun ⟨_, hf⟩ => by rw [hok] at hf; exact absurd hf (by decide)) (hok _)]
    exact ⟨rfl, rfl⟩
  · rw [eventIncidentId, if_neg hnb] at hbelow ⊢
    rw [chosenAction, if_neg hnb]
    rw [handler_pipeline_success env store event hnb hp (Nat.not_le.mpr hbelow) (hok _)]
    exact ⟨rfl, rfl⟩

/-- C4 witness: a never-seen build incident (read as 0) is persisted with
retry count 1. -/
theorem handler_success_persists_witness :
    (recognized ⟨cbDetailType, ⟨"b1".toList, FAILED, [], [], [], []⟩⟩ ∧
      getRetries (fun _ => none)
        (eventIncidentId ⟨cbDetailType, ⟨"b1".toList, FAILED, [], [], [], []⟩⟩) < 2 ∧
      ∀ c, (fun (_ : ExecCall) => true) c = true) ∧
    (handler ⟨2, some "topic".toList, fun _ => ⟨"proj".toList, "blob".toList⟩,
        fun _ => true⟩
      (fun _ => none)
      ⟨cbDetailType, ⟨"b1".toList, FAILED, [], [], [], []⟩⟩).writes =
      [(eventIncidentId ⟨cbDetailType, ⟨"b1".toList, FAILED, [], [], [], []⟩⟩,
        ⟨getRetries (fun _ => none)
            (eventIncidentId ⟨cbDetailType, ⟨"b1".toList, FAILED, [], [], [], []⟩⟩) + 1,
          chosenAction ⟨2, some "topic".toList,
            fun _ => ⟨"proj".toList, "blob".toList⟩, fun _ => true⟩
            ⟨cbDetailType, ⟨"b1".toList, FAILED, [], [], [], []⟩⟩,
          Status.RETRYING⟩)] :=
  ⟨⟨by decide, by decide, fun _ => rfl⟩,
    (handler_success_persists
      ⟨2, some "topic".toList, fun _ => ⟨"proj".toList, "blob".toList⟩, fun _ => true⟩
      (fun _ => none)
      ⟨cbDetailType, ⟨"b1".toList, FAILED, [], [], [], []⟩⟩
      (by decide) (by decide) (fun _ => rfl)).2⟩

/-- C6: a pipeline action-execution failure below budget always chooses
`RETRY_STAGE` regardless of payload content, and the single orchestration
call is `retryStageExecution` scoped by pipeline name, execution id and
stage name with `retryMode = FAILED_ACTIONS` (failed actions only, not the
whole pipeline). -/
theorem handler_pipeline_retry_stage (env : Env) (store : Store) (event : Event)
    (hnb : ¬ recognizedBuild event) (hp : recognizedPipeline event)
    (hbelow : getRetries store
      (pipelineIncidentId event.detail.executionId event.detail.stage) < env.maxRetries)
    (hok : env.execOk (.retryStageExecution event.detail.pipeline
      event.detail.executionId event.detail.stage FAILED_ACTIONS) = true) :
    chosenAction env event = Action.RETRY_STAGE ∧
    (handler env store event).calls = [.retryStageExecution event.detail.pipeline
      event.detail.executionId event.detail.stage FAILED_ACTIONS] ∧
    (handler env store event).writes =
      [(pipelineIncidentId event.detail.executionId event.detail.stage,
        ⟨getRetries store
            (pipelineIncidentId event.detail.executionId event.detail.stage) + 1,
          Action.RETRY_STAGE, Status.RETRYING⟩)] := by
  rw [chosenAction, if_neg hnb]
  rw [handler_pipeline_success env store event hnb hp (Nat.not_le.mpr hbelow) hok]
  exact ⟨rfl, rfl, rfl⟩

/-- C6 witness: scenario B — pipeline `p1`, stage `Build`, execution `e1`,
stored count 0: the stage retry is invoked with that exact scope. -/
theorem handler_pipeline_retry_stage_witness :
    (¬ recognizedBuild ⟨cpDetailType, ⟨[], [], "p1".toList, "Build".toList, "e1".toList, FAILED⟩⟩ ∧
      recognizedPipeline ⟨cpDetailType, ⟨[], [], "p1".toList, "Build".toList, "e1".toList, FAILED⟩⟩ ∧
      getRetries (fun _ => none) (pipelineIncidentId "e1".toList "Build".toList) < 2) ∧
    (handler ⟨2, some "topic".toList, fun _ => ⟨"proj".toList, "blob".toList⟩, fun _ => true⟩
      (fun _ => none)
      ⟨cpDetailType, ⟨[], [], "p1".toList, "Build".toList, "e1".toList, FAILED⟩⟩).calls =
      [.retryStageExecution "p1".toList "e1".toList "Build".toList FAILED_ACTIONS] :=
  ⟨⟨by decide, by decide, by decide⟩,
    (handler_pipeline_retry_stage
      ⟨2, some "topic".toList, fun _ => ⟨"proj".toList, "blob".toList⟩, fun _ => true⟩
      (fun _ => none)
      ⟨cpDetailType, ⟨[], [], "p1".toList, "Build".toList, "e1".toList, FAILED⟩⟩
      (by decide) (by decide) (by decide) rfl).2.1⟩

/-- In the successful build branch every fallible call attempted succeeded:
the timeout bump (when attempted) and the re-trigger, the backoff
suspension being infallible. -/
theorem build_success_calls_ok (env : Env) (p : List Char) (action : Action)
    (hpre : ¬ (action = Action.BUMP_TIMEOUT_AND_RETRY
      ∧ env.execOk (.updateProject p 25) = false))
    (hok : env.execOk (.startBuild p) = true) :
    ∀ c ∈ preSteps p action ++ [ExecCall.startBuild p],
      fallibleCall c = true → env.execOk c = true := by
  intro c hc hfal
  rcases List.mem_append.mp hc with hpre' | hlast
  · unfold preSteps at hpre'
    rcases List.mem_append.mp hpre' with h1 | h2
    · by_cases ha : action = Action.BUMP_TIMEOUT_AND_RETRY
      · rw [if_pos ha] at h1
        simp only [List.mem_singleton] at h1
        subst h1
        rcases hfu : env.execOk (.updateProject p 25) with _ | _
        · exact absurd ⟨ha, hfu⟩ hpre
        · rfl
      · rw [if_neg ha] at h1
        simp at h1
    · by_cases hb : action = Action.BACKOFF_AND_RETRY
      · rw [if_pos hb] at h2
        simp only [List.mem_singleton] at h2
        subst h2
        simp [fallibleCall] at hfal
      · rw [if_neg hb] at h2
        simp at h2
  · simp only [List.mem_singleton] at hlast
    subst hlast
    exact hok

/-- C3: when an orchestration call the handler attempts fails, the error
propagates (the invocation throws) and no store write occurs, so the stored
state is unchanged at every identity and a subsequent identical delivery
produces the identical outcome — in particular it reads the same retry
count, and the failed attempt consumed no budget. -/
theorem handler_exec_failure_no_write (env : Env) (store : Store) (event : Event)
    (hfail : ∃ c ∈ (handler env store event).calls,
      fallibleCall c = true ∧ env.execOk c = false) :
    (handler env store event).threw = true ∧
    (handler env store event).writes = [] ∧
    (∀ id, getRetries (applyOutcome store (handler env store event)) id
      = getRetries store id) ∧
    handler env (applyOutcome store (handler env store event)) event
      = handler env store event := by
  by_cases hb : recognizedBuild event
  · by_cases hr : env.maxRetries
      ≤ getRetries store (buildIncidentId event.detail.buildId)
    · rw [handler_build_giveup env store event hb hr] at hfail
      simp at hfail
    · by_cases hpre : classify (env.describe event.detail.buildId).serialized
          = Action.BUMP_TIMEOUT_AND_RETRY
        ∧ env.execOk
          (.updateProject (env.describe event.detail.buildId).projectName 25) = false
      · have heq := handler_build_bumpfail env store event hb hr hpre.1 hpre.2
        rw [heq]
        exact ⟨rfl, rfl, fun id => rfl, heq⟩
      · by_cases hsb : env.execOk
          (.startBuild (env.describe event.detail.buildId).projectName) = false
        · have heq := handler_build_startfail env store event hb hr hpre hsb
          rw [heq]
          exact ⟨rfl, rfl, fun id => rfl, heq⟩
        · have hok : env.execOk
              (.startBuild (env.describe event.detail.buildId).projectName) = true := by
            revert hsb
            cases env.execOk (.startBuild (env.describe event.detail.buildId).projectName)
            · simp
            · simp
          rw [handler_build_success env store event hb hr hpre hok] at hfail
          obtain ⟨c, hc, hfal, hko⟩ := hfail
          rw [build_success_calls_ok env _ _ hpre hok c hc hfal] at hko
          exact absurd hko (by decide)
  · by_cases hp : recognizedPipeline event
    · by_cases hr : env.maxRetries ≤ getRetries store
        (pipelineIncidentId event.detail.executionId event.detail.stage)
      · rw [handler_pipeline_giveup env store event hb hp hr] at hfail
        simp at hfail
      · by_cases hsf : env.execOk (.retryStageExecution event.detail.pipeline
          event.detail.executionId event.detail.stage FAILED_ACTIONS) = false
        · have heq := handler_pipeline_fail env store event hb hp hr hsf
          rw [heq]
          exact ⟨rfl, rfl, fun id => rfl, heq⟩
        · have hok : env.execOk (.retryStageExecution event.detail.pipeline
              event.detail.executionId event.detail.stage FAILED_ACTIONS) = true := by
            revert hsf
            cases env.execOk (.retryStageExecution event.detail.pipeline
              event.detail.executionId event.detail.stage FAILED_ACTIONS)
            · simp
            · simp
          rw [handler_pipeline_success env store event hb hp hr hok] at hfail
          obtain ⟨c, hc, _, hko⟩ := hfail
          simp only [List.mem_singleton] at hc
          subst hc
          rw [hok] at hko
          exact absurd hko (by decide)
    · rw [handler_noop env store event hb hp] at hfail
      simp at hfail

/-- C3 witness: scenario C — `retryCount = 0` stored (absent), the
`startBuild` re-trigger fails: the invocation throws and nothing is
written, and the retry count read afterwards is still 0. -/
theorem handler_exec_failure_no_write_witness :
    (∃ c ∈ (handler ⟨2, some "topic".toList,
        fun _ => ⟨"proj".toList, "blob".toList⟩,
        fun c => match c with | .startBuild _ => false | _ => true⟩
      (fun _ => none)
      ⟨cbDetailType, ⟨"b1".toList, FAILED, [], [], [], []⟩⟩).calls,
      fallibleCall c = true ∧
        (fun c => match c with | ExecCall.startBuild _ => false | _ => true) c = false) ∧
    (handler ⟨2, some "topic".toList,
        fun _ => ⟨"proj".toList, "blob".toList⟩,
        fun c => match c with | .startBuild _ => false | _ => true⟩
      (fun _ => none)
      ⟨cbDetailType, ⟨"b1".toList, FAILED, [], [], [], []⟩⟩).writes = [] :=
  ⟨⟨.startBuild "proj".toList, by decide, by decide, by decide⟩,
    (handler_exec_failure_no_write
      ⟨2, some "topic".toList, fun _ => ⟨"proj".toList, "blob".toList⟩,
        fun c => match c with | .startBuild _ => false | _ => true⟩
      (fun _ => none)
      ⟨cbDetailType, ⟨"b1".toList, FAILED, [], [], [], []⟩⟩
      ⟨.startBuild "proj".toList, by decide, by decide, by decide⟩).2.1⟩

/-- Every handler invocation writes either nothing or a single record whose
retry count is the value read, or the value read plus one. -/
theorem handler_writes_cases (env : Env) (store : Store) (event : Event) :
    (handler env store event).writes = [] ∨
    ∃ k r a s, (handler env store event).writes = [(k, ⟨r, a, s⟩)] ∧
      (r = getRetries store k ∨ r = getRetries store k + 1) := by
  by_cases hb : recognizedBuild event
  · by_cases hr : env.maxRetries
      ≤ getRetries store (buildIncidentId event.detail.buildId)
    · right
      exact ⟨_, _, _, _, by rw [handler_build_giveup env store event hb hr], Or.inl rfl⟩
    · by_cases hpre : classify (env.describe event.detail.buildId).serialized
          = Action.BUMP_TIMEOUT_AND_RETRY
        ∧ env.execOk
          (.updateProject (env.describe event.detail.buildId).projectName 25) = false
      · left
        rw [handler_build_bumpfail env store event hb hr hpre.1 hpre.2]
      · by_cases hsb : env.execOk
          (.startBuild (env.describe event.detail.buildId).projectName) = false
        · left
          rw [handler_build_startfail env store event hb hr hpre hsb]
        · have hok : env.execOk
              (.startBuild (env.describe event.detail.buildId).projectName) = true := by
            revert hsb
            cases env.execOk (.startBuild (env.describe event.detail.buildId).projectName)
            · simp
            · simp
          right
          exact ⟨_, _, _, _,
            by rw [handler_build_success env store event hb hr hpre hok], Or.inr rfl⟩
  · by_cases hp : recognizedPipeline event
    · by_cases hr : env.maxRetries ≤ getRetries store
        (pipelineIncidentId event.detail.executionId event.detail.stage)
      · right
        exact ⟨_, _, _, _,
          by rw [handler_pipeline_giveup env store event hb hp hr], Or.inl rfl⟩
      · by_cases hsf : env.execOk (.retryStageExecution event.detail.pipeline
          event.detail.executionId event.detail.stage FAILED_ACTIONS) = false
        · left
          rw [handler_pipeline_fail env store event hb hp hr hsf]
        · have hok : env.execOk (.retryStageExecution event.detail.pipeline
              event.detail.executionId event.detail.stage FAILED_ACTIONS) = true := by
            revert hsf
            cases env.execOk (.retryStageExecution event.detail.pipeline
              event.detail.executionId event.detail.stage FAILED_ACTIONS)
            · simp
            · simp
          right
          exact ⟨_, _, _, _,
            by rw [handler_pipeline_success env store event hb hp hr hok], Or.inr rfl⟩
    · left
      rw [handler_noop env store event hb hp]

/-- Reading back the identity just written yields the written record. -/
theorem getRetries_update_self (store : Store) (k : List Char) (v : StoredItem) :
    getRetries (fun k' => if k' = k then some v else store k') k = v.retries := by
  simp [getRetries]

/-- Writing one identity leaves every other identity's read unchanged. -/
theorem getRetries_update_other (store : Store) (k k' : List Char) (v : StoredItem)
    (h : k' ≠ k) :
    getRetries (fun x => if x = k then some v else store x) k' = getRetries store k' := by
  simp [getRetries, h]

/-- One processed event never lowers any identity's stored retry count. -/
theorem getRetries_step_mono (env : Env) (store : Store) (event : Event)
    (id : List Char) :
    getRetries store id ≤ getRetries (applyOutcome store (handler env store event)) id := by
  rcases handler_writes_cases env store event with hnil | ⟨k, r, a, s, heq, hval⟩
  · rw [applyOutcome, hnil]
    simp
  · rw [applyOutcome, heq]
    simp only [List.foldl_cons, List.foldl_nil]
    by_cases hid : id = k
    · subst hid
      rw [getRetries_update_self]
      rcases hval with h | h
      · rw [h]
      · rw [h]
        exact Nat.le_succ _
    · rw [getRetries_update_other store k id _ hid]

/-- C5: across sequential processing the stored retry count of every
identity is monotonically non-decreasing — each processed event writes
either the value it read (escalation) or that value plus exactly one
(remediation), and no sequence of processed events ever decreases a stored
count. -/
theorem retryCount_monotone (env : Env) :
    (∀ store event k v, (k, v) ∈ (handler env store event).writes →
      v.retries = getRetries store k ∨ v.retries = getRetries store k + 1) ∧
    (∀ events store id,
      getRetries store id ≤ getRetries (processAll env events store) id) := by
  constructor
  · intro store event k v hmem
    rcases handler_writes_cases env store event with hnil | ⟨k', r, a, s, heq, hval⟩
    · rw [hnil] at hmem
      simp at hmem
    · rw [heq] at hmem
      simp only [List.mem_singleton, Prod.mk.injEq] at hmem
      obtain ⟨rfl, rfl⟩ := hmem
      exact hval
  · intro events
    induction events with
    | nil => intro store id; exact le_refl _
    | cons e es ih =>
      intro store id
      exact le_trans (getRetries_step_mono env store e id)
        (ih (applyOutcome store (handler env store e)) id)

/-- C5 witness: processing a fresh build failure writes exactly the value
read (0) plus one, and a two-event sequence leaves the count no lower. -/
theorem retryCount_monotone_witness :
    ((buildIncidentId "b1".toList, (⟨1, Action.RETRY, Status.RETRYING⟩ : StoredItem)) ∈
      (handler ⟨2, some "topic".toList, fun _ => ⟨"proj".toList, "blob".toList⟩,
        fun _ => true⟩ (fun _ => none)
        ⟨cbDetailType, ⟨"b1".toList, FAILED, [], [], [], []⟩⟩).writes) ∧
    ((⟨1, Action.RETRY, Status.RETRYING⟩ : StoredItem).retries
        = getRetries (fun _ => none) (buildIncidentId "b1".toList)
      ∨ (⟨1, Action.RETRY, Status.RETRYING⟩ : StoredItem).retries
        = getRetries (fun _ => none) (buildIncidentId "b1".toList) + 1) :=
  ⟨by decide,
    (retryCount_monotone ⟨2, some "topic".toList,
        fun _ => ⟨"proj".toList, "blob".toList⟩, fun _ => true⟩).1
      (fun _ => none) ⟨cbDetailType, ⟨"b1".toList, FAILED, [], [], [], []⟩⟩
      (buildIncidentId "b1".toList) ⟨1, Action.RETRY, Status.RETRYING⟩ (by decide)⟩

/-- C8 counterexample: two pipeline failure events that differ only in
pipeline name (distinct events, distinct tuples) derive the *same* incident
identity, and the handler writes them under the same store key — the
pipeline name is not part of `codepipeline:${execId}:${stageName}`. -/
theorem pipeline_identity_ignores_name_cex :
    "p1".toList ≠ "p2".toList ∧
    pipelineEventNamed "p1".toList ≠ pipelineEventNamed "p2".toList ∧
    eventIncidentId (pipelineEventNamed "p1".toList)
      = eventIncidentId (pipelineEventNamed "p2".toList) ∧
    ((handler ⟨2, some "topic".toList, fun _ => ⟨"proj".toList, "blob".toList⟩,
        fun _ => true⟩ (fun _ => none) (pipelineEventNamed "p1".toList)).writes.map
          Prod.fst
      = (handler ⟨2, some "topic".toList, fun _ => ⟨"proj".toList, "blob".toList⟩,
        fun _ => true⟩ (fun _ => none) (pipelineEventNamed "p2".toList)).writes.map
          Prod.fst) := by
  refine ⟨by decide, by decide, by decide, by decide⟩

/-- Splitting at a separator absent from both left parts is injective. -/
theorem append_sep_inj (a : Char) :
    ∀ e1 e2 s1 s2 : List Char, a ∉ e1 → a ∉ e2 →
      e1 ++ a :: s1 = e2 ++ a :: s2 → e1 = e2 ∧ s1 = s2 := by
  intro e1
  induction e1 with
  | nil =>
    intro e2 s1 s2 _ h2 heq
    cases e2 with
    | nil => simpa using heq
    | cons b t =>
      simp only [List.nil_append, List.cons_append, List.cons.injEq] at heq
      have hab := heq.1
      subst hab
      exact absurd (List.mem_cons_self _ _) h2
  | cons b t ih =>
    intro e2 s1 s2 h1 h2 heq
    cases e2 with
    | nil =>
      simp only [List.cons_append, List.nil_append, List.cons.injEq] at heq
      rw [heq.1] at h1
      exact absurd (List.mem_cons_self _ _) h1
    | cons c u =>
      simp only [List.cons_append, List.cons.injEq] at heq
      obtain ⟨hbc, hrest⟩ := heq
      have h1' : a ∉ t := fun hx => h1 (List.mem_cons_of_mem _ hx)
      have h2' : a ∉ u := fun hx => h2 (List.mem_cons_of_mem _ hx)
      obtain ⟨he, hs⟩ := ih u s1 s2 h1' h2' hrest
      exact ⟨by rw [hbc, he], hs⟩

/-- Build identities and pipeline identities never coincide. -/
theorem buildId_ne_pipelineId (b e s : List Char) :
    buildIncidentId b ≠ pipelineIncidentId e s := by
  intro h
  have hcb : "codebuild:".toList = ['c', 'o', 'd', 'e', 'b', 'u', 'i', 'l', 'd', ':'] := rfl
  have hcp : "codepipeline:".toList
    = ['c', 'o', 'd', 'e', 'p', 'i', 'p', 'e', 'l', 'i', 'n', 'e', ':'] := rfl
  rw [buildIncidentId, pipelineIncidentId, hcb, hcp] at h
  simp at h

/-- C8 (amended): the incident identity is a deterministic function of the
event. For build events it determines and is determined by the build id.
For pipeline-stage events it is derived from the execution id and stage
name only — the pipeline name is not part of the identity, so events
differing only in pipeline name share it — and for execution ids free of
the `:` separator it determines and is determined by the
(execution id, stage name) pair; build and pipeline identities are always
distinct. -/
theorem incidentId_characterization (b1 b2 p1 p2 e1 e2 s1 s2 : List Char)
    (hc1 : ':' ∉ e1) (hc2 : ':' ∉ e2) :
    (buildIncidentId b1 = buildIncidentId b2 ↔ b1 = b2) ∧
    (pipelineIncidentId e1 s1 = pipelineIncidentId e2 s2 ↔ (e1 = e2 ∧ s1 = s2)) ∧
    buildIncidentId b1 ≠ pipelineIncidentId e1 s1 ∧
    (∀ t bid bst st,
      eventIncidentId ⟨t, ⟨bid, bst, p1, s1, e1, st⟩⟩
        = eventIncidentId ⟨t, ⟨bid, bst, p2, s1, e1, st⟩⟩) := by
  refine ⟨?_, ?_, buildId_ne_pipelineId b1 e1 s1, ?_⟩
  · constructor
    · intro h
      exact List.append_cancel_left h
    · intro h
      rw [h]
  · constructor
    · intro h
      rw [pipelineIncidentId, pipelineIncidentId] at h
      have hcolon : ":".toList = [':'] := rfl
      simp only [hcolon, List.append_assoc, List.singleton_append] at h
      exact append_sep_inj ':' e1 e2 s1 s2 hc1 hc2 (List.append_cancel_left h)
    · intro ⟨he, hs⟩
      rw [he, hs]
  · intro t bid bst st
    rfl

/-- C8 (amended) witness at colon-free execution ids. -/
theorem incidentId_characterization_witness :
    (':' ∉ "e1".toList ∧ ':' ∉ "e2".toList) ∧
    (pipelineIncidentId "e1".toList "Build".toList
        = pipelineIncidentId "e2".toList "Build".toList
      ↔ ("e1".toList = "e2".toList ∧ "Build".toList = "Build".toList)) :=
  ⟨⟨by decide, by decide⟩,
    (incidentId_characterization "b1".toList "b2".toList "p1".toList "p2".toList
      "e1".toList "e2".toList "Build".toList "Build".toList
      (by decide) (by decide)).2.1⟩

end Doctor
